import Mathlib

/-!
Verification development for the silent-alarm-detector repository.

The two source files embedded here are `src/analyzers/pattern_detector.py`
(class `SilentAlarmDetector`) and `src/analyzers/impact_assessor.py`
(class `ImpactAssessor`).  Conventions of the embedding:

* Python `float` arithmetic is modelled exactly over `ℚ` (the numeric
  literals of the source — weights, multipliers, confidences, `0.3`,
  `0.4`, `0.3` — are exact decimals); `int(x)` is truncation toward zero
  (`pyInt`), `round(x, 1)` is round-half-to-even at one decimal
  (`pyRound1`), mirroring Python semantics on exact values.
* Python `str` is modelled as `List Char`; the regular-expression
  detectors are embedded by a small backtracking matcher (`seqMatch`,
  `reFinditer`) whose preference order (greedy longest-first, lazy
  shortest-first, alternation left-first, leftmost non-overlapping scan)
  is that of Python's `re.finditer`.  The character classes `\s` and `\w`
  are modelled on their ASCII parts.
* The standard-library call `ast.parse` is external to the repository;
  its outcome is passed to the engine as an `Option (List PyNode)`
  argument, `none` modelling a `SyntaxError` (the `try/except` of
  `_detect_assumption_bypass`).  `PyNode` models the statement-level
  shape of the Python AST that the detector inspects: function
  definitions with their declared parameter names, `if` statements, and
  any other node with nested child nodes; `ast.walk`'s breadth-first
  order is `bfsWalk`.
* Exceptions: the embedded functions are total; the absence of any
  `Option`/`Except` in the result types of `analyze_code` and
  `assess_impact` is the model of "never raises to the caller".
-/

namespace SilentAlarm

/-- `PatternType` enum of `pattern_detector.py`. -/
inductive PatternType where
  | SILENT_FALLBACK
  | WARNING_SUPPRESSION
  | ASSUMPTION_BYPASS
  | DUPLICATE_CODE
  | PERFORMANCE_DEGRADATION
  | SECURITY_SHORTCUT
  | ERROR_MASKING
  | TEST_AVOIDANCE
deriving DecidableEq

/-- `Severity` enum of `pattern_detector.py`. -/
inductive Severity where
  | CRITICAL
  | WARNING
  | INFO
deriving DecidableEq

/-- The `Detection` dataclass of `pattern_detector.py`. -/
structure Detection where
  pattern_type : PatternType
  severity : Severity
  line_number : ℕ
  code_snippet : String
  description : String
  impact : String
  recommendation : String
  confidence : ℚ
deriving DecidableEq

/-- One value of the `PATTERN_WEIGHTS` table of `impact_assessor.py`. -/
structure PatternWeights where
  performance : ℚ
  security : ℚ
  maintainability : ℚ
  debug_hours : ℚ
deriving DecidableEq

/-- `ImpactAssessor.PATTERN_WEIGHTS` (fields in source order:
performance, security, maintainability, debug_hours). -/
def PATTERN_WEIGHTS : List (PatternType × PatternWeights) :=
  [(.SILENT_FALLBACK, ⟨10, 30, 50, 8⟩),
   (.WARNING_SUPPRESSION, ⟨5, 20, 40, 4⟩),
   (.ASSUMPTION_BYPASS, ⟨10, 40, 30, 6⟩),
   (.DUPLICATE_CODE, ⟨15, 10, 60, 12⟩),
   (.PERFORMANCE_DEGRADATION, ⟨70, 5, 20, 16⟩),
   (.SECURITY_SHORTCUT, ⟨5, 95, 30, 24⟩),
   (.ERROR_MASKING, ⟨10, 15, 45, 10⟩),
   (.TEST_AVOIDANCE, ⟨5, 10, 50, 20⟩)]

/-- The `self.PATTERN_WEIGHTS.get(detection.pattern_type, {...default...})`
lookup of `assess_impact`, default tuple `(10, 10, 10, 4.0)`. -/
def weightsFor (p : PatternType) : PatternWeights :=
  (PATTERN_WEIGHTS.lookup p).getD ⟨10, 10, 10, 4⟩

/-- `ImpactAssessor.SEVERITY_MULTIPLIERS`. -/
def SEVERITY_MULTIPLIERS : Severity → ℚ
  | .CRITICAL => 2
  | .WARNING => 1
  | .INFO => 1/2

/-- The `ImpactScore` dataclass of `impact_assessor.py`. -/
structure ImpactScore where
  total_score : ℤ
  performance_cost : ℤ
  security_risk : ℤ
  maintainability_debt : ℤ
  estimated_debug_hours : ℚ
  risk_level : String
deriving DecidableEq

/-- Python `int(x)` on a float value: truncation toward zero. -/
def pyInt (q : ℚ) : ℤ := if 0 ≤ q then ⌊q⌋ else ⌈q⌉

/-- Round to the nearest integer, ties to even (Python `round` on exact
values). -/
def roundHalfEven (q : ℚ) : ℤ :=
  if q - ⌊q⌋ < 1/2 then ⌊q⌋
  else if 1/2 < q - ⌊q⌋ then ⌊q⌋ + 1
  else if 2 ∣ ⌊q⌋ then ⌊q⌋ else ⌊q⌋ + 1

/-- Python `round(x, 1)` on an exact value. -/
def pyRound1 (q : ℚ) : ℚ := (roundHalfEven (q * 10) : ℚ) / 10

/-- Loop body of the `for detection in detections` accumulation of
`assess_impact` (the four running sums, in source order). -/
def assessStep (a : ℚ × ℚ × ℚ × ℚ) (detection : Detection) : ℚ × ℚ × ℚ × ℚ :=
  let weights := weightsFor detection.pattern_type
  let multiplier := SEVERITY_MULTIPLIERS detection.severity
  let confidence := detection.confidence
  (a.1 + weights.performance * multiplier * confidence,
   a.2.1 + weights.security * multiplier * confidence,
   a.2.2.1 + weights.maintainability * multiplier * confidence,
   a.2.2.2 + weights.debug_hours * multiplier * confidence)

/-- `ImpactAssessor.assess_impact` of `impact_assessor.py`. -/
def assess_impact (detections : List Detection) : ImpactScore :=
  if detections.isEmpty then
    { total_score := 0, performance_cost := 0, security_risk := 0,
      maintainability_debt := 0, estimated_debug_hours := 0, risk_level := "LOW" }
  else
    let acc := detections.foldl assessStep (0, 0, 0, 0)
    let num_detections : ℚ := detections.length
    let performance_cost : ℤ := min 100 (pyInt (acc.1 / max num_detections 1))
    let security_risk : ℤ := min 100 (pyInt (acc.2.1 / max num_detections 1))
    let maintainability_debt : ℤ := min 100 (pyInt (acc.2.2.1 / max num_detections 1))
    let total_score : ℤ := pyInt ((performance_cost : ℚ) * (3/10) +
      (security_risk : ℚ) * (4/10) + (maintainability_debt : ℚ) * (3/10))
    let risk_level : String :=
      if total_score ≥ 80 ∨ security_risk ≥ 90 then "CRITICAL"
      else if total_score ≥ 60 ∨ security_risk ≥ 70 then "HIGH"
      else if total_score ≥ 40 then "MEDIUM"
      else "LOW"
    { total_score := total_score, performance_cost := performance_cost,
      security_risk := security_risk, maintainability_debt := maintainability_debt,
      estimated_debug_hours := pyRound1 acc.2.2.2, risk_level := risk_level }

/-- Per-finding contribution to one of the four accumulated sums. -/
def contrib (f : PatternWeights → ℚ) (d : Detection) : ℚ :=
  f (weightsFor d.pattern_type) * SEVERITY_MULTIPLIERS d.severity * d.confidence

/-- Sum of one metric's contributions over a findings list. -/
def metricSum (f : PatternWeights → ℚ) (ds : List Detection) : ℚ :=
  (ds.map (contrib f)).sum

/-- The risk-level rule exactly as the specification words it:
a pure function of `total_score` and `security_risk`, first match wins. -/
def specRiskLevel (total_score security_risk : ℤ) : String :=
  if total_score ≥ 80 ∨ security_risk ≥ 90 then "CRITICAL"
  else if total_score ≥ 60 ∨ security_risk ≥ 70 then "HIGH"
  else if total_score ≥ 40 then "MEDIUM"
  else "LOW"

/-- The normalized, clamped value of one of the three 0-100 metrics. -/
def normMetric (f : PatternWeights → ℚ) (ds : List Detection) : ℤ :=
  min 100 (pyInt (metricSum f ds / max (ds.length : ℚ) 1))

/-- The weighted-average total score recomputed from the three metrics. -/
def specTotal (ds : List Detection) : ℤ :=
  pyInt ((normMetric (·.performance) ds : ℚ) * (3/10) +
    (normMetric (·.security) ds : ℚ) * (4/10) +
    (normMetric (·.maintainability) ds : ℚ) * (3/10))

/-- Replace a finding's severity by `Critical`, all other fields kept. -/
def criticalize (d : Detection) : Detection := { d with severity := .CRITICAL }

/-- The three fields of a finding that the scoring arithmetic reads. -/
def scoreFields (d : Detection) : PatternType × Severity × ℚ :=
  (d.pattern_type, d.severity, d.confidence)

/-- Sample finding used by concrete witnesses. -/
def wDet1 : Detection :=
  { pattern_type := .SECURITY_SHORTCUT, severity := .CRITICAL, line_number := 3,
    code_snippet := "x = eval(s)", description := "d", impact := "i",
    recommendation := "r", confidence := 0.95 }

/-- Second sample finding used by concrete witnesses. -/
def wDet2 : Detection :=
  { pattern_type := .SILENT_FALLBACK, severity := .WARNING, line_number := 9,
    code_snippet := "except Exception: pass", description := "d2", impact := "i2",
    recommendation := "r2", confidence := 0.9 }

/-- Copy of `wDet1` that differs only in fields the scoring must ignore. -/
def wDet1' : Detection :=
  { pattern_type := .SECURITY_SHORTCUT, severity := .CRITICAL, line_number := 77,
    code_snippet := "other snippet", description := "other", impact := "other",
    recommendation := "other", confidence := 0.95 }

/-! Text machinery: Python `str` operations used by `pattern_detector.py`,
over `List Char`. -/

/-- Python `\s` on its ASCII part: space, tab, newline, carriage return,
vertical tab, form feed. -/
def isWsChar (c : Char) : Bool :=
  c == ' ' || c == '\t' || c == '\n' || c == '\r' ||
    c == Char.ofNat 11 || c == Char.ofNat 12

/-- Python `\w` on its ASCII part: letters, digits, underscore. -/
def isWordChar (c : Char) : Bool := c.isAlphanum || c == '_'

/-- Python `code.split(chr(10))`: split into lines at newlines. -/
def splitNl : List Char → List (List Char)
  | [] => [[]]
  | c :: t =>
      if c = '\n' then [] :: splitNl t
      else
        match splitNl t with
        | [] => [[c]]
        | h :: r => (c :: h) :: r

/-- Python `str.strip()`: drop whitespace from both ends. -/
def stripChars (s : List Char) : List Char :=
  ((s.dropWhile isWsChar).reverse.dropWhile isWsChar).reverse

/-- Python `re.sub(whitespace-run, single-space, s)`: collapse every maximal
whitespace run to one space.  The boolean records whether the previous
character was whitespace. -/
def collapseWsGo : Bool → List Char → List Char
  | _, [] => []
  | prevWs, c :: t =>
      if isWsChar c then
        if prevWs then collapseWsGo true t else ' ' :: collapseWsGo true t
      else c :: collapseWsGo false t

/-- Collapse whitespace runs (fresh scan, nothing seen yet). -/
def collapseWs (s : List Char) : List Char := collapseWsGo false s

/-- 1-based line number of the character offset `start`:
`code[:start].count(newline) + 1`. -/
def lineNumberAt (code : List Char) (start : ℕ) : ℕ :=
  (code.take start).count '\n' + 1

/-- `lines[line_num-1].strip() if line_num <= len(lines) else ""` — the
snippet extraction shared by the text detectors. -/
def snippetAt (lines : List (List Char)) (line_num : ℕ) : String :=
  if line_num ≤ lines.length then ⟨stripChars (lines.getD (line_num - 1) [])⟩
  else ""

/-- Does `needle` occur as a contiguous subsequence of `hay`?  (Python's
`in` operator on strings.) -/
def hasSubstr (needle hay : List Char) : Bool :=
  (List.range (hay.length + 1)).any (fun i => needle.isPrefixOf (hay.drop i))

/-! The regular-expression subset used by the detectors.  Every quantifier
in the source patterns ranges over a single character class, which the
embedding exploits: a pattern is a sequence of items, and the backtracking
matcher returns all candidate remainders in Python's preference order
(greedy longest-first, lazy shortest-first, alternation left-to-right). -/

/-- Character classes appearing in the source patterns. -/
inductive CClass where
  | ws
  | word
  | anyNN
  | anyAll
  | oneOf (cs : List Char)
  | noneOf (cs : List Char)
deriving DecidableEq

/-- Membership test of a character class. -/
def CClass.test : CClass → Char → Bool
  | .ws, c => isWsChar c
  | .word, c => isWordChar c
  | .anyNN, c => c != '\n'
  | .anyAll, _ => true
  | .oneOf l, c => l.contains c
  | .noneOf l, c => !(l.contains c)

/-- One item of a pattern: literal text, a single class character, greedy
star/plus, lazy star, literal alternation, or the MULTILINE end-of-line
assertion. -/
inductive RItem where
  | lit (s : List Char)
  | cls (c : CClass)
  | star (c : CClass)
  | plus (c : CClass)
  | starL (c : CClass)
  | alt (ss : List (List Char))
  | eol
deriving DecidableEq

/-- A pattern is a sequence of items. -/
abbrev Regex := List RItem

/-- All remainders after matching the pattern at the head of `s`, in
Python's backtracking preference order (head = preferred). -/
def seqMatch : Regex → List Char → List (List Char)
  | [], s => [s]
  | .lit l :: rest, s =>
      if l.isPrefixOf s then seqMatch rest (s.drop l.length) else []
  | .cls c :: rest, s =>
      match s with
      | [] => []
      | ch :: t => if c.test ch then seqMatch rest t else []
  | .star c :: rest, s =>
      ((List.range ((s.takeWhile c.test).length + 1)).reverse).flatMap
        (fun k => seqMatch rest (s.drop k))
  | .plus c :: rest, s =>
      ((List.range (s.takeWhile c.test).length).reverse).flatMap
        (fun k => seqMatch rest (s.drop (k + 1)))
  | .starL c :: rest, s =>
      (List.range ((s.takeWhile c.test).length + 1)).flatMap
        (fun k => seqMatch rest (s.drop k))
  | .alt ss :: rest, s =>
      ss.flatMap (fun l =>
        if l.isPrefixOf s then seqMatch rest (s.drop l.length) else [])
  | .eol :: rest, s =>
      match s with
      | [] => seqMatch rest []
      | c :: t => if c = '\n' then seqMatch rest (c :: t) else []

/-- Length of the preferred match of `pat` at the head of `s`, if any. -/
def matchHere (pat : Regex) (s : List Char) : Option ℕ :=
  match seqMatch pat s with
  | [] => none
  | r :: _ => some (s.length - r.length)

/-- The scan underlying `re.finditer`: try each start offset from left to
right, skipping offsets inside the previous match (non-overlapping), and
record `(start, length)` of every match found. -/
def finditerGo (pat : Regex) (code : List Char) : List ℕ → ℕ → List (ℕ × ℕ)
  | [], _ => []
  | pos :: rest, minPos =>
      if pos < minPos then finditerGo pat code rest minPos
      else
        match matchHere pat (code.drop pos) with
        | some len => (pos, len) :: finditerGo pat code rest (pos + max len 1)
        | none => finditerGo pat code rest minPos

/-- `re.finditer(pat, code)` as the list of `(start, length)` pairs. -/
def reFinditer (pat : Regex) (code : List Char) : List (ℕ × ℕ) :=
  finditerGo pat code (List.range (code.length + 1)) 0

/-- The characters that the source's `["\']` classes accept: a double and a
single quotation mark. -/
def quoteChars : List Char := [Char.ofNat 34, Char.ofNat 39]

/-- Shorthand: a literal pattern item from a string. -/
def litP (s : String) : RItem := RItem.lit s.toList

/-- Shorthand: a literal-alternation pattern item from strings. -/
def altP (ss : List String) : RItem := RItem.alt (ss.map String.toList)

/-- Shorthand: one character out of `["\']`. -/
def quoteP : RItem := RItem.cls (.oneOf quoteChars)

/-! The patterns of `pattern_detector.py`, in source order. -/

/-- `except\s*:\s*pass` (silent fallback, pattern 1). -/
def patSf1 : Regex :=
  [litP ("except"), .star .ws, litP (":"), .star .ws, litP ("pass")]

/-- `except\s+Exception\s*:\s*pass` (silent fallback, pattern 2). -/
def patSf2 : Regex :=
  [litP ("except"), .plus .ws, litP ("Exception"), .star .ws, litP (":"),
   .star .ws, litP ("pass")]

/-- `except\s+\w+\s*:\s*\n\s*$` with MULTILINE (silent fallback, pattern 3). -/
def patSf3 : Regex :=
  [litP ("except"), .plus .ws, .plus .word, .star .ws, litP (":"), .star .ws,
   litP ("\n"), .star .ws, .eol]

/-- `except.*?:\s*return\s+None\s*$` with MULTILINE (silent fallback,
pattern 4). -/
def patSf4 : Regex :=
  [litP ("except"), .starL .anyNN, litP (":"), .star .ws, litP ("return"),
   .plus .ws, litP ("None"), .star .ws, .eol]

/-- `warnings\.filterwarnings\(["\']ignore["\']\)`. -/
def patWs1 : Regex :=
  [litP ("warnings.filterwarnings("), quoteP, litP ("ignore"), quoteP, litP (")")]

/-- `-W\s+ignore`. -/
def patWs2 : Regex := [litP ("-W"), .plus .ws, litP ("ignore")]

/-- `@pytest\.mark\.filterwarnings\(["\']ignore`. -/
def patWs3 : Regex :=
  [litP ("@pytest.mark.filterwarnings("), quoteP, litP ("ignore")]

/-- `import\s+warnings.*?warnings\.simplefilter\(["\']ignore["\']\)` (no
DOTALL: `.` stops at newlines). -/
def patWs4 : Regex :=
  [litP ("import"), .plus .ws, litP ("warnings"), .starL .anyNN,
   litP ("warnings.simplefilter("), quoteP, litP ("ignore"), quoteP, litP (")")]

/-- `for\s+\w+\s+in.*?:\s*\n.*?for\s+\w+\s+in` with DOTALL. -/
def patPd1 : Regex :=
  [litP ("for"), .plus .ws, .plus .word, .plus .ws, litP ("in"), .starL .anyAll,
   litP (":"), .star .ws, litP ("\n"), .starL .anyAll,
   litP ("for"), .plus .ws, .plus .word, .plus .ws, litP ("in")]

/-- `for\s+.*?:\s*\n.*?(requests\.|http\.|fetch\(|get\()` with DOTALL. -/
def patPd2 : Regex :=
  [litP ("for"), .plus .ws, .starL .anyAll, litP (":"), .star .ws, litP ("\n"),
   .starL .anyAll, altP (["requests.", "http.", "fetch(", "get("])]

/-- `\.format\(.*SELECT.*FROM` — run with IGNORECASE, so matched on the
lower-cased text. -/
def patSs1 : Regex :=
  [litP (".format("), .star .anyNN, litP ("select"), .star .anyNN, litP ("from")]

/-- `eval\(` (IGNORECASE). -/
def patSs2 : Regex := [litP ("eval(")]

/-- `exec\(` (IGNORECASE). -/
def patSs3 : Regex := [litP ("exec(")]

/-- `(password|secret|api_key)\s*=\s*["\'][^"\']+["\']` (IGNORECASE). -/
def patSs4 : Regex :=
  [altP (["password", "secret", "api_key"]), .star .ws, litP ("="), .star .ws,
   quoteP, .plus (.noneOf quoteChars), quoteP]

/-- `raise\s+Exception\(["\']Error["\']`. -/
def patEm1 : Regex :=
  [litP ("raise"), .plus .ws, litP ("Exception("), quoteP, litP ("Error"), quoteP]

/-- `raise\s+Exception\(["\']Something went wrong["\']`. -/
def patEm2 : Regex :=
  [litP ("raise"), .plus .ws, litP ("Exception("), quoteP,
   litP ("Something went wrong"), quoteP]

/-- `raise\s+Exception\(["\']Failed["\']`. -/
def patEm3 : Regex :=
  [litP ("raise"), .plus .ws, litP ("Exception("), quoteP, litP ("Failed"), quoteP]

/-- `@pytest\.mark\.skip`. -/
def patTa1 : Regex := [litP ("@pytest.mark.skip")]

/-- `@unittest\.skip`. -/
def patTa2 : Regex := [litP ("@unittest.skip")]

/-- `skipTest\(`. -/
def patTa3 : Regex := [litP ("skipTest(")]

/-- One `for match in re.finditer(...)` emission loop: one finding per
match, built from the match's start offset. -/
def ruleFindings (pat : Regex) (code : List Char) (mk : ℕ → Detection) :
    List Detection :=
  (reFinditer pat code).map (fun m => mk m.1)

/-- `SilentAlarmDetector._detect_silent_fallback`. -/
def detect_silent_fallback (code : List Char) (lines : List (List Char)) :
    List Detection :=
  ruleFindings patSf1 code (fun st =>
    { pattern_type := .SILENT_FALLBACK, severity := .CRITICAL,
      line_number := lineNumberAt code st,
      code_snippet := snippetAt lines (lineNumberAt code st),
      description := "Bare except: pass silences ALL exceptions including critical ones",
      impact := "⚠️ Crashes and errors will be invisible. Debugging impossible. Production failures go unnoticed.",
      recommendation := "Add logging: logger.exception(\x27Error in X\x27) OR catch specific exceptions",
      confidence := 1 })
  ++ ruleFindings patSf2 code (fun st =>
    { pattern_type := .SILENT_FALLBACK, severity := .WARNING,
      line_number := lineNumberAt code st,
      code_snippet := snippetAt lines (lineNumberAt code st),
      description := "Exception silenced without logging",
      impact := "🔇 Errors hidden. No visibility into failures. Silent degradation.",
      recommendation := "Log the exception: logger.warning(f\x27Error: {e}\x27, exc_info=True)",
      confidence := 0.95 })
  ++ ruleFindings patSf3 code (fun st =>
    { pattern_type := .SILENT_FALLBACK, severity := .WARNING,
      line_number := lineNumberAt code st,
      code_snippet := snippetAt lines (lineNumberAt code st),
      description := "Empty except block - error swallowed",
      impact := "🕳️ Error disappears without trace. Impossible to debug.",
      recommendation := "Add at minimum: logger.exception(\x27Context message\x27)",
      confidence := 0.9 })
  ++ ((reFinditer patSf4 code).filter (fun m =>
        !(hasSubstr (("log").toList) (((code.drop m.1).take m.2).map Char.toLower)))).map
      (fun m =>
    { pattern_type := .SILENT_FALLBACK, severity := .WARNING,
      line_number := lineNumberAt code m.1,
      code_snippet := snippetAt lines (lineNumberAt code m.1),
      description := "Silent None return on exception",
      impact := "🎭 Failure masked as \x27no result\x27. Caller can\x27t distinguish error from empty.",
      recommendation := "Log before returning OR raise a custom exception",
      confidence := 0.85 })

/-- The `(pattern, description)` table of
`SilentAlarmDetector._detect_warning_suppression`. -/
def warningRules : List (Regex × String) :=
  [(patWs1, "warnings.filterwarnings(\x27ignore\x27) suppresses ALL warnings"),
   (patWs2, "Command line -W ignore flag suppresses warnings"),
   (patWs3, "pytest filterwarnings(ignore) hides test warnings"),
   (patWs4, "warnings.simplefilter(\x27ignore\x27) globally suppresses warnings")]

/-- `SilentAlarmDetector._detect_warning_suppression`. -/
def detect_warning_suppression (code : List Char) (lines : List (List Char)) :
    List Detection :=
  warningRules.flatMap (fun pr =>
    ruleFindings pr.1 code (fun st =>
      { pattern_type := .WARNING_SUPPRESSION, severity := .WARNING,
        line_number := lineNumberAt code st,
        code_snippet := snippetAt lines (lineNumberAt code st),
        description := pr.2,
        impact := "🙈 Deprecations, resource leaks, and API changes invisible. Technical debt accumulates.",
        recommendation := "Suppress specific warnings only: warnings.filterwarnings(\x27ignore\x27, category=SpecificWarning)",
        confidence := 0.95 }))

/-! The structural detector.  `PyNode` models the statement-level AST shape
inspected by `_detect_assumption_bypass`: `ast.FunctionDef` nodes (with
their `lineno`, declared positional parameter names and body),
`ast.If` nodes, and any other node together with its child nodes. -/

/-- Statement-level model of the Python AST. -/
inductive PyNode where
  | funcDef (name : String) (lineno : ℕ) (args : List String) (body : List PyNode)
  | ifNode (lineno : ℕ) (body : List PyNode)
  | other (lineno : ℕ) (body : List PyNode)

/-- `ast.iter_child_nodes`, at the granularity of the model. -/
def PyNode.childNodes : PyNode → List PyNode
  | .funcDef _ _ _ body => body
  | .ifNode _ body => body
  | .other _ body => body

mutual
/-- Number of nodes in a tree (termination measure for `bfsWalk`). -/
def ndSize : PyNode → ℕ
  | .funcDef _ _ _ b => ndSizeL b + 1
  | .ifNode _ b => ndSizeL b + 1
  | .other _ b => ndSizeL b + 1
/-- Number of nodes in a forest. -/
def ndSizeL : List PyNode → ℕ
  | [] => 0
  | n :: t => ndSize n + ndSizeL t
end

/-- `ast.walk`: breadth-first traversal (FIFO queue), each node yielded
before its children are enqueued. -/
def bfsWalk (q : List PyNode) : List PyNode :=
  match q with
  | [] => []
  | h :: t => (h :: t) ++ bfsWalk ((h :: t).flatMap PyNode.childNodes)
termination_by ndSizeL q
decreasing_by
  have happ : ∀ a b : List PyNode, ndSizeL (a ++ b) = ndSizeL a + ndSizeL b := by
    intro a b
    induction a with
    | nil => simp [ndSizeL]
    | cons x s ih => simp only [List.cons_append, List.append_eq, ndSizeL, ih]; omega
  have hch : ∀ n : PyNode, ndSizeL n.childNodes + 1 = ndSize n := by
    intro n
    cases n <;> simp [PyNode.childNodes, ndSize]
  have hmain : ∀ l : List PyNode, ndSizeL (l.flatMap PyNode.childNodes) ≤ ndSizeL l := by
    intro l
    induction l with
    | nil => simp [ndSizeL]
    | cons n s ih =>
        have h1 := hch n
        simp only [List.flatMap_cons, List.append_eq, happ, ndSizeL]
        omega
  have hstrict : ∀ (n : PyNode) (l : List PyNode),
      ndSizeL ((n :: l).flatMap PyNode.childNodes) < ndSizeL (n :: l) := by
    intro n l
    have h1 := hch n
    have h2 := hmain l
    simp only [List.flatMap_cons, List.append_eq, happ, ndSizeL]
    omega
  exact hstrict _ _

/-- `isinstance(node, ast.If)`. -/
def isIfNode : PyNode → Bool
  | .ifNode _ _ => true
  | _ => false

/-- `SilentAlarmDetector._detect_assumption_bypass`.  The outcome of the
external `ast.parse(code)` call is the argument: `none` is a
`SyntaxError` (the `except SyntaxError: pass` branch), `some tree` a
successful parse of the top-level statement list. -/
def detect_assumption_bypass (parsed : Option (List PyNode)) : List Detection :=
  match parsed with
  | none => []
  | some tree =>
      (bfsWalk tree).flatMap (fun node =>
        match node with
        | .funcDef name lineno args _ =>
            let param_names := args
            let has_validation := (bfsWalk [node]).any isIfNode
            if param_names ≠ [] ∧ has_validation = false ∧ 0 < param_names.length then
              [{ pattern_type := .ASSUMPTION_BYPASS, severity := .WARNING,
                 line_number := lineno,
                 code_snippet := "def " ++ name ++ "(" ++
                   String.intercalate (", ") param_names ++ ")",
                 description := "Function uses parameters without validation",
                 impact := "💥 Will crash on edge cases: None, empty strings, negative numbers, etc.",
                 recommendation := "Add validation: if " ++ param_names.headD ("") ++
                   " is None: raise ValueError(...)",
                 confidence := 0.7 }]
            else []
        | _ => [])

/-- `SilentAlarmDetector._detect_duplicate_code`'s loop over window start
indices, threading the `seen_blocks` map (normalized window ↦ first line
number). -/
def dupGo (lines : List (List Char)) :
    List ℕ → List (List Char × ℕ) → List Detection
  | [], _ => []
  | i :: rest, seen =>
      let block := List.intercalate (['\n']) ((lines.drop i).take 10)
      let normalized := stripChars (collapseWs block)
      if 50 < normalized.length then
        match seen.lookup normalized with
        | some orig =>
            { pattern_type := .DUPLICATE_CODE, severity := .WARNING,
              line_number := i + 1,
              code_snippet := "Duplicate block at line " ++ toString (i + 1) ++
                " (also at " ++ toString orig ++ ")",
              description := "10-line duplicate code block",
              impact := "📋 Violates DRY. Bug fixes need multiple changes. Maintenance nightmare.",
              recommendation := "Extract to function or refactor common logic",
              confidence := 0.9 } :: dupGo lines rest seen
        | none => dupGo lines rest ((normalized, i + 1) :: seen)
      else dupGo lines rest seen

/-- `SilentAlarmDetector._detect_duplicate_code` (window size 10, minimum
normalized length 50; the scan covers start indices
`range(len(lines) - block_size)`). -/
def detect_duplicate_code (_code : List Char) (lines : List (List Char)) :
    List Detection :=
  dupGo lines (List.range (lines.length - 10)) []

/-- `SilentAlarmDetector._detect_performance_degradation`. -/
def detect_performance_degradation (code : List Char) (_lines : List (List Char)) :
    List Detection :=
  ruleFindings patPd1 code (fun st =>
    { pattern_type := .PERFORMANCE_DEGRADATION, severity := .INFO,
      line_number := lineNumberAt code st,
      code_snippet := "Nested for loops detected",
      description := "Potential O(n²) complexity",
      impact := "🐌 Performance degrades quadratically. 100 items = 10K operations. 1000 items = 1M operations.",
      recommendation := "Consider using dict lookup (O(1)) or set operations instead",
      confidence := 0.6 })
  ++ ruleFindings patPd2 code (fun st =>
    { pattern_type := .PERFORMANCE_DEGRADATION, severity := .WARNING,
      line_number := lineNumberAt code st,
      code_snippet := "API call inside loop",
      description := "Repeated API calls without batching",
      impact := "⏱️ N+1 query problem. 100 items = 100 API calls. Slow + rate limit issues.",
      recommendation := "Batch API calls or use bulk endpoints",
      confidence := 0.8 })

/-- The `(pattern, description, impact, recommendation)` table of
`_detect_security_shortcuts`. -/
def securityRules : List (Regex × String × String × String) :=
  [(patSs1, "SQL injection via string formatting",
    "🔓 SQL INJECTION! Attacker can execute arbitrary SQL, dump database, delete data.",
    "Use parameterized queries: cursor.execute(\x27SELECT * FROM users WHERE id = %s\x27, (user_id,))"),
   (patSs2, "eval() allows arbitrary code execution",
    "☠️ REMOTE CODE EXECUTION! Attacker can run ANY Python code on your server.",
    "Never use eval(). Parse JSON with json.loads() or use ast.literal_eval() for literals"),
   (patSs3, "exec() allows arbitrary code execution",
    "☠️ REMOTE CODE EXECUTION! Attacker can run ANY Python code.",
    "Refactor to avoid exec(). Use functions, classes, or importlib instead"),
   (patSs4, "Hardcoded credentials",
    "🔑 CREDENTIAL LEAK! Credentials in code will be in git, logs, error messages.",
    "Use environment variables: os.environ[\x27API_KEY\x27] or secrets manager")]

/-- `SilentAlarmDetector._detect_security_shortcuts`.  IGNORECASE matching
is embedded by scanning the lower-cased text with lower-cased literals
(line numbers are unaffected: `toLower` never touches newlines). -/
def detect_security_shortcuts (code : List Char) (lines : List (List Char)) :
    List Detection :=
  securityRules.flatMap (fun r =>
    ruleFindings r.1 (code.map Char.toLower) (fun st =>
      { pattern_type := .SECURITY_SHORTCUT, severity := .CRITICAL,
        line_number := lineNumberAt (code.map Char.toLower) st,
        code_snippet := snippetAt lines (lineNumberAt (code.map Char.toLower) st),
        description := r.2.1,
        impact := r.2.2.1,
        recommendation := r.2.2.2,
        confidence := 0.95 }))

/-- `SilentAlarmDetector._detect_error_masking`. -/
def detect_error_masking (code : List Char) (lines : List (List Char)) :
    List Detection :=
  [patEm1, patEm2, patEm3].flatMap (fun pat =>
    ruleFindings pat code (fun st =>
      { pattern_type := .ERROR_MASKING, severity := .INFO,
        line_number := lineNumberAt code st,
        code_snippet := snippetAt lines (lineNumberAt code st),
        description := "Generic error message without context",
        impact := "🤷 Users/developers can\x27t understand what failed or why. Support burden increases.",
        recommendation := "Use specific exceptions: raise ValueError(f\x27Invalid input {x}: must be > 0\x27)",
        confidence := 0.8 }))

/-- `SilentAlarmDetector._detect_test_avoidance`. -/
def detect_test_avoidance (code : List Char) (lines : List (List Char)) :
    List Detection :=
  [patTa1, patTa2, patTa3].flatMap (fun pat =>
    ruleFindings pat code (fun st =>
      { pattern_type := .TEST_AVOIDANCE, severity := .WARNING,
        line_number := lineNumberAt code st,
        code_snippet := snippetAt lines (lineNumberAt code st),
        description := "Test marked as skip",
        impact := "🧪 Skipped tests = untested code. Regressions will go unnoticed.",
        recommendation := "Fix the test instead of skipping. If temporary, add issue reference and deadline.",
        confidence := 0.9 }))

/-- `SilentAlarmDetector.analyze_code`: run the eight detectors in source
order and concatenate their findings.  `parsed` is the outcome of the
external `ast.parse(code)` call used by the structural detector. -/
def analyze_code (code : List Char) (parsed : Option (List PyNode)) :
    List Detection :=
  let lines := splitNl code
  detect_silent_fallback code lines
    ++ detect_warning_suppression code lines
    ++ detect_assumption_bypass parsed
    ++ detect_duplicate_code code lines
    ++ detect_performance_degradation code lines
    ++ detect_security_shortcuts code lines
    ++ detect_error_masking code lines
    ++ detect_test_avoidance code lines

/-- The structural detector's output as the specification words it: one
Warning/0.7 finding at the definition line of every function-like
definition that declares at least one parameter and whose body contains no
conditional-branch node anywhere (nested bodies included), naming the
first parameter in the recommendation. -/
def specBypass (tree : List PyNode) : List Detection :=
  (bfsWalk tree).filterMap (fun node =>
    match node with
    | .funcDef name lineno args body =>
        if args ≠ [] ∧ ((bfsWalk body).any isIfNode) = false then
          some { pattern_type := .ASSUMPTION_BYPASS, severity := .WARNING,
                 line_number := lineno,
                 code_snippet := "def " ++ name ++ "(" ++
                   String.intercalate (", ") args ++ ")",
                 description := "Function uses parameters without validation",
                 impact := "💥 Will crash on edge cases: None, empty strings, negative numbers, etc.",
                 recommendation := "Add validation: if " ++ args.headD ("") ++
                   " is None: raise ValueError(...)",
                 confidence := 0.7 }
        else none
    | _ => none)

/-- Position of a category in the fixed detector-execution order. -/
def catIdx : PatternType → ℕ
  | .SILENT_FALLBACK => 0
  | .WARNING_SUPPRESSION => 1
  | .ASSUMPTION_BYPASS => 2
  | .DUPLICATE_CODE => 3
  | .PERFORMANCE_DEGRADATION => 4
  | .SECURITY_SHORTCUT => 5
  | .ERROR_MASKING => 6
  | .TEST_AVOIDANCE => 7

/-- Non-decreasing detector-category order between two findings. -/
def catLE (a b : Detection) : Prop :=
  catIdx a.pattern_type ≤ catIdx b.pattern_type

/-- The pair a finding's place in the claimed output order is judged by:
its detector-category index and its line number (the observable image of
the first-match position). -/
def ordKey (d : Detection) : ℕ × ℕ := (catIdx d.pattern_type, d.line_number)

/-- The ordering claimed for `analyze_code` output: strictly later category,
or same category with non-decreasing line number (a necessary condition of
"ascending first-match position within each detector"). -/
def claimedOrdering (l : List Detection) : Prop :=
  (l.map ordKey).Pairwise (fun a b => a.1 < b.1 ∨ (a.1 = b.1 ∧ a.2 ≤ b.2))

/-- Input whose silent-fallback findings violate the claimed within-detector
order: pattern 1 (`except: pass`) matches on line 2, pattern 2
(`except Exception: pass`) on line 1, and the detector runs pattern 1
first.  (For `ast.parse` this text is a `SyntaxError`, hence `none`.) -/
def cexC7 : List Char := ("except Exception: pass\nexcept: pass").toList

/-- A 12-character line `pre ++ two-digit i` used to build the duplicate
block scenario. -/
def dupLine (pre : String) (i : ℕ) : String :=
  pre ++ (if i < 10 then "0" else "") ++ toString i

/-- Duplicate-block scenario input: a 12-line block (every line 12
characters, all distinct), three unrelated separator lines, then the same
12-line block again — 27 lines, no other detector's pattern present, and a
`SyntaxError` for `ast.parse`. -/
def cexC8 : List Char :=
  (String.intercalate ("\n")
    (((List.range 12).map (fun i => dupLine ("]]]]]]aaaa") (i + 1))) ++
     ((List.range 3).map (fun i => dupLine ("[[[[[[zzzz") (i + 1))) ++
     ((List.range 12).map (fun i => dupLine ("]]]]]]aaaa") (i + 1))))).toList

section AssessorLemmas

theorem foldl_assessStep (ds : List Detection) (a₁ a₂ a₃ a₄ : ℚ) :
    ds.foldl assessStep (a₁, a₂, a₃, a₄) =
      (a₁ + metricSum (·.performance) ds, a₂ + metricSum (·.security) ds,
       a₃ + metricSum (·.maintainability) ds, a₄ + metricSum (·.debug_hours) ds) := by
  induction ds generalizing a₁ a₂ a₃ a₄ with
  | nil => simp [metricSum]
  | cons d t ih =>
      simp only [List.foldl_cons, assessStep]
      rw [ih]
      simp only [metricSum, List.map_cons, List.sum_cons, contrib, Prod.mk.injEq]
      refine ⟨by ring, by ring, by ring, by ring⟩

theorem assess_impact_eq (ds : List Detection) (h : ds ≠ []) :
    assess_impact ds =
      { total_score := specTotal ds,
        performance_cost := normMetric (·.performance) ds,
        security_risk := normMetric (·.security) ds,
        maintainability_debt := normMetric (·.maintainability) ds,
        estimated_debug_hours := pyRound1 (metricSum (·.debug_hours) ds),
        risk_level := specRiskLevel (specTotal ds) (normMetric (·.security) ds) } := by
  have hne : ds.isEmpty = false := by
    cases ds with
    | nil => exact absurd rfl h
    | cons a t => rfl
  simp only [assess_impact, hne, Bool.false_eq_true, if_false]
  rw [foldl_assessStep]
  simp only [zero_add, normMetric, specTotal, specRiskLevel]

theorem metricSum_perm (f : PatternWeights → ℚ) {ds ds' : List Detection}
    (h : ds.Perm ds') : metricSum f ds = metricSum f ds' :=
  (h.map (contrib f)).sum_eq

theorem pyInt_mono {a b : ℚ} (h : a ≤ b) : pyInt a ≤ pyInt b := by
  unfold pyInt
  by_cases ha : 0 ≤ a
  · have hb : 0 ≤ b := le_trans ha h
    simp only [ha, hb, if_true]
    exact Int.floor_le_floor h
  · by_cases hb : 0 ≤ b
    · simp only [ha, hb, if_true, if_false]
      have h1 : ⌈a⌉ ≤ 0 := Int.ceil_le.mpr (by exact_mod_cast le_of_not_le ha)
      have h2 : (0 : ℤ) ≤ ⌊b⌋ := Int.le_floor.mpr (by exact_mod_cast hb)
      omega
    · simp only [ha, hb, if_false]
      exact Int.ceil_le_ceil h

theorem weights_nonneg (p : PatternType) :
    0 ≤ (weightsFor p).performance ∧ 0 ≤ (weightsFor p).security ∧
      0 ≤ (weightsFor p).maintainability := by
  cases p <;> decide

end AssessorLemmas

/-- Claim C4: `assess_impact` applied to the empty findings list returns the
zero-value `ImpactScore`: all integer metrics 0, debug hours 0.0, risk level
LOW. -/
theorem assess_impact_empty :
    assess_impact [] =
      { total_score := 0, performance_cost := 0, security_risk := 0,
        maintainability_debt := 0, estimated_debug_hours := 0,
        risk_level := "LOW" } := rfl

/-- Claim C2: for every findings list the `risk_level` field of the result of
`assess_impact` is exactly `specRiskLevel` applied to the result's
`total_score` and `security_risk` — i.e. it is determined solely by those two
values, by the first matching rule of the CRITICAL/HIGH/MEDIUM/LOW chain, and
no other part of the input influences it. -/
theorem risk_level_determined_by_scores (ds : List Detection) :
    (assess_impact ds).risk_level =
      specRiskLevel (assess_impact ds).total_score (assess_impact ds).security_risk := by
  rcases eq_or_ne ds [] with rfl | h
  · decide
  · rw [assess_impact_eq ds h]

/-- Claim C3: on a non-empty findings list, each of the three 0-100 metrics is
`min 100` of the truncated average contribution (category weight × severity
multiplier × confidence, averaged over the number of findings), the total
score is the truncation of the 0.3/0.4/0.3 weighted combination of the three
metrics, and the estimated debug hours are the un-normalized accumulated sum
rounded to one decimal. -/
theorem assess_impact_nonempty_formula (ds : List Detection) (h : ds ≠ []) :
    (assess_impact ds).performance_cost =
        min 100 (pyInt (metricSum (·.performance) ds / (ds.length : ℚ))) ∧
      (assess_impact ds).security_risk =
        min 100 (pyInt (metricSum (·.security) ds / (ds.length : ℚ))) ∧
      (assess_impact ds).maintainability_debt =
        min 100 (pyInt (metricSum (·.maintainability) ds / (ds.length : ℚ))) ∧
      (assess_impact ds).total_score =
        pyInt (((assess_impact ds).performance_cost : ℚ) * (3/10) +
          ((assess_impact ds).security_risk : ℚ) * (4/10) +
          ((assess_impact ds).maintainability_debt : ℚ) * (3/10)) ∧
      (assess_impact ds).estimated_debug_hours =
        pyRound1 (metricSum (·.debug_hours) ds) := by
  have hlen : (1 : ℚ) ≤ (ds.length : ℚ) := by
    exact_mod_cast Nat.one_le_iff_ne_zero.mpr (by simpa using h)
  have hmax : max (ds.length : ℚ) 1 = (ds.length : ℚ) := max_eq_left hlen
  rw [assess_impact_eq ds h]
  refine ⟨?_, ?_, ?_, ?_, rfl⟩ <;>
    simp only [normMetric, specTotal, hmax]

/-- Concrete witness for claim C3's theorem at the one-element list
`[wDet1]`. -/
theorem assess_impact_nonempty_formula_witness :
    ([wDet1] ≠ ([] : List Detection)) ∧
      ((assess_impact [wDet1]).performance_cost =
          min 100 (pyInt (metricSum (·.performance) [wDet1] / (([wDet1] : List Detection).length : ℚ))) ∧
        (assess_impact [wDet1]).security_risk =
          min 100 (pyInt (metricSum (·.security) [wDet1] / (([wDet1] : List Detection).length : ℚ))) ∧
        (assess_impact [wDet1]).maintainability_debt =
          min 100 (pyInt (metricSum (·.maintainability) [wDet1] / (([wDet1] : List Detection).length : ℚ))) ∧
        (assess_impact [wDet1]).total_score =
          pyInt (((assess_impact [wDet1]).performance_cost : ℚ) * (3/10) +
            ((assess_impact [wDet1]).security_risk : ℚ) * (4/10) +
            ((assess_impact [wDet1]).maintainability_debt : ℚ) * (3/10)) ∧
        (assess_impact [wDet1]).estimated_debug_hours =
          pyRound1 (metricSum (·.debug_hours) [wDet1])) :=
  ⟨by decide, assess_impact_nonempty_formula [wDet1] (by decide)⟩

/-- Claim C5: `assess_impact` is invariant under permutation of the findings
list — every field of the result, including `estimated_debug_hours`, agrees
on any two lists that are permutations of each other. -/
theorem assess_impact_perm_invariant (ds ds' : List Detection)
    (h : ds.Perm ds') : assess_impact ds = assess_impact ds' := by
  rcases eq_or_ne ds [] with rfl | hne
  · rw [h.symm.eq_nil]
  · have hne' : ds' ≠ [] := by
      intro e
      exact hne (List.length_eq_zero.mp (by rw [h.length_eq, e]; rfl))
    have h1 := metricSum_perm (·.performance) h
    have h2 := metricSum_perm (·.security) h
    have h3 := metricSum_perm (·.maintainability) h
    have h4 := metricSum_perm (·.debug_hours) h
    have hl := h.length_eq
    rw [assess_impact_eq ds hne, assess_impact_eq ds' hne']
    simp only [normMetric, specTotal, h1, h2, h3, h4, hl]

/-- Concrete witness for claim C5's theorem: swapping a two-element list. -/
theorem assess_impact_perm_invariant_witness :
    ([wDet1, wDet2].Perm [wDet2, wDet1]) ∧
      assess_impact [wDet1, wDet2] = assess_impact [wDet2, wDet1] :=
  ⟨List.Perm.swap wDet2 wDet1 [],
   assess_impact_perm_invariant [wDet1, wDet2] [wDet2, wDet1]
     (List.Perm.swap wDet2 wDet1 [])⟩

/-- Claim C6: replacing a Warning-severity finding (whose confidence is
non-negative, as the data model requires) by the otherwise-identical
Critical finding can only increase or preserve each of the three 0-100
metrics. -/
theorem severity_upgrade_monotone (pre post : List Detection) (d : Detection)
    (hW : d.severity = .WARNING) (hc : 0 ≤ d.confidence) :
    (assess_impact (pre ++ d :: post)).performance_cost ≤
        (assess_impact (pre ++ criticalize d :: post)).performance_cost ∧
      (assess_impact (pre ++ d :: post)).security_risk ≤
        (assess_impact (pre ++ criticalize d :: post)).security_risk ∧
      (assess_impact (pre ++ d :: post)).maintainability_debt ≤
        (assess_impact (pre ++ criticalize d :: post)).maintainability_debt := by
  have hne : (pre ++ d :: post) ≠ [] := by simp
  have hne' : (pre ++ criticalize d :: post) ≠ [] := by simp
  have hlen : (pre ++ criticalize d :: post).length = (pre ++ d :: post).length := by
    simp [criticalize]
  have key : ∀ f : PatternWeights → ℚ, 0 ≤ f (weightsFor d.pattern_type) →
      normMetric f (pre ++ d :: post) ≤ normMetric f (pre ++ criticalize d :: post) := by
    intro f hw
    have hsum : metricSum f (pre ++ d :: post) ≤ metricSum f (pre ++ criticalize d :: post) := by
      simp only [metricSum, List.map_append, List.map_cons, List.sum_append, List.sum_cons]
      have hcontrib : contrib f d ≤ contrib f (criticalize d) := by
        simp only [contrib, criticalize, hW, SEVERITY_MULTIPLIERS]
        nlinarith [mul_nonneg hw hc]
      linarith
    have hpos : (0 : ℚ) < max ((pre ++ d :: post).length : ℚ) 1 :=
      lt_of_lt_of_le zero_lt_one (le_max_right _ _)
    simp only [normMetric, hlen]
    exact min_le_min le_rfl (pyInt_mono ((div_le_div_iff_of_pos_right hpos).mpr hsum))
  rw [assess_impact_eq _ hne, assess_impact_eq _ hne']
  exact ⟨key _ (weights_nonneg _).1, key _ (weights_nonneg _).2.1,
    key _ (weights_nonneg _).2.2⟩

/-- Concrete witness for claim C6's theorem: upgrading the Warning finding
`wDet2`, alone in its list, to Critical. -/
theorem severity_upgrade_monotone_witness :
    (wDet2.severity = Severity.WARNING) ∧ (0 ≤ wDet2.confidence) ∧
      ((assess_impact ([] ++ wDet2 :: [])).performance_cost ≤
          (assess_impact ([] ++ criticalize wDet2 :: [])).performance_cost ∧
        (assess_impact ([] ++ wDet2 :: [])).security_risk ≤
          (assess_impact ([] ++ criticalize wDet2 :: [])).security_risk ∧
        (assess_impact ([] ++ wDet2 :: [])).maintainability_debt ≤
          (assess_impact ([] ++ criticalize wDet2 :: [])).maintainability_debt) :=
  ⟨rfl, by with_unfolding_all decide,
   severity_upgrade_monotone [] [] wDet2 rfl (by with_unfolding_all decide)⟩

/-- Claim C10: `assess_impact` reads only `pattern_type`, `severity` and
`confidence` of each finding: two findings lists that agree pointwise on
those three fields produce identical `ImpactScore`s, whatever their line
numbers, snippets, descriptions, impact texts or recommendations. -/
theorem assess_impact_field_agnostic (ds₁ ds₂ : List Detection)
    (h : List.Forall₂ (fun a b => scoreFields a = scoreFields b) ds₁ ds₂) :
    assess_impact ds₁ = assess_impact ds₂ := by
  have hmap : ∀ f : PatternWeights → ℚ, metricSum f ds₁ = metricSum f ds₂ := by
    intro f
    simp only [metricSum]
    induction h with
    | nil => rfl
    | cons hab htl ih =>
        simp only [scoreFields, Prod.mk.injEq] at hab
        simp only [List.map_cons, List.sum_cons, ih, contrib, hab.1, hab.2.1, hab.2.2]
  have hlen := h.length_eq
  rcases eq_or_ne ds₁ [] with rfl | hne
  · have : ds₂ = [] := List.length_eq_zero.mp (by rw [← hlen]; rfl)
    rw [this]
  · have hne₂ : ds₂ ≠ [] := by
      intro e
      exact hne (List.length_eq_zero.mp (by rw [hlen, e]; rfl))
    rw [assess_impact_eq ds₁ hne, assess_impact_eq ds₂ hne₂]
    simp only [normMetric, specTotal, hmap, hlen]

/-- Concrete witness for claim C10's theorem: `wDet1` and `wDet1'` differ in
line number, snippet, description, impact and recommendation only. -/
theorem assess_impact_field_agnostic_witness :
    List.Forall₂ (fun a b => scoreFields a = scoreFields b) [wDet1] [wDet1'] ∧
      assess_impact [wDet1] = assess_impact [wDet1'] :=
  ⟨List.Forall₂.cons rfl List.Forall₂.nil,
   assess_impact_field_agnostic [wDet1] [wDet1']
     (List.Forall₂.cons rfl List.Forall₂.nil)⟩

section DetectorLemmas

theorem finditerGo_mem {pat : Regex} {code : List Char} :
    ∀ {idxs : List ℕ} {minPos : ℕ} {m : ℕ × ℕ},
      m ∈ finditerGo pat code idxs minPos → m.1 ∈ idxs := by
  intro idxs
  induction idxs with
  | nil => intro minPos m h; simp [finditerGo] at h
  | cons i rest ih =>
      intro minPos m h
      rw [finditerGo] at h
      split at h
      · exact List.mem_cons_of_mem _ (ih h)
      · split at h
        · rcases List.mem_cons.mp h with rfl | h'
          · exact List.mem_cons_self _ _
          · exact List.mem_cons_of_mem _ (ih h')
        · exact List.mem_cons_of_mem _ (ih h)

theorem finditerGo_pairwise {pat : Regex} {code : List Char} :
    ∀ {idxs : List ℕ} {minPos : ℕ}, idxs.Pairwise (· < ·) →
      (finditerGo pat code idxs minPos).Pairwise (fun a b => a.1 < b.1) := by
  intro idxs
  induction idxs with
  | nil => intro minPos _; simp [finditerGo]
  | cons i rest ih =>
      intro minPos hp
      rw [List.pairwise_cons] at hp
      rw [finditerGo]
      split
      · exact ih hp.2
      · split
        · refine List.Pairwise.cons ?_ (ih hp.2)
          intro m' hm'
          exact hp.1 m'.1 (finditerGo_mem hm')
        · exact ih hp.2

theorem reFinditer_pairwise (pat : Regex) (code : List Char) :
    (reFinditer pat code).Pairwise (fun a b => a.1 < b.1) :=
  finditerGo_pairwise (List.pairwise_lt_range _)

theorem lineNumberAt_mono {code : List Char} {a b : ℕ} (h : a ≤ b) :
    lineNumberAt code a ≤ lineNumberAt code b := by
  unfold lineNumberAt
  have heq : (code.take b).take a = code.take a := by
    rw [List.take_take, min_eq_left h]
  have hsub : (code.take a).Sublist (code.take b) := by
    rw [← heq]
    exact List.take_sublist _ _
  have := hsub.count_le '\n'
  omega

theorem sf_cat {code : List Char} {lines : List (List Char)} {d : Detection}
    (h : d ∈ detect_silent_fallback code lines) :
    d.pattern_type = .SILENT_FALLBACK := by
  simp only [detect_silent_fallback, ruleFindings, List.mem_append, List.mem_map,
    List.mem_filter] at h
  rcases h with ((⟨m, _, rfl⟩ | ⟨m, _, rfl⟩) | ⟨m, _, rfl⟩) | ⟨m, _, rfl⟩ <;> rfl

theorem ws_cat {code : List Char} {lines : List (List Char)} {d : Detection}
    (h : d ∈ detect_warning_suppression code lines) :
    d.pattern_type = .WARNING_SUPPRESSION := by
  simp only [detect_warning_suppression, ruleFindings, List.mem_flatMap,
    List.mem_map] at h
  rcases h with ⟨pr, _, m, _, rfl⟩
  rfl

theorem ab_cat {parsed : Option (List PyNode)} {d : Detection}
    (h : d ∈ detect_assumption_bypass parsed) :
    d.pattern_type = .ASSUMPTION_BYPASS := by
  cases parsed with
  | none => simp [detect_assumption_bypass] at h
  | some tree =>
      simp only [detect_assumption_bypass, List.mem_flatMap] at h
      rcases h with ⟨node, _, hd⟩
      cases node with
      | funcDef name lineno args body =>
          simp only at hd
          split at hd
          · rcases List.mem_singleton.mp hd with rfl
            rfl
          · simp at hd
      | ifNode l b => simp at hd
      | other l b => simp at hd

theorem dupGo_mem {lines : List (List Char)} :
    ∀ {idxs : List ℕ} {seen : List (List Char × ℕ)} {d : Detection},
      d ∈ dupGo lines idxs seen →
        d.pattern_type = .DUPLICATE_CODE ∧ d.confidence = 0.9 ∧
          ∃ i ∈ idxs, d.line_number = i + 1 := by
  intro idxs
  induction idxs with
  | nil => intro seen d h; simp [dupGo] at h
  | cons i rest ih =>
      intro seen d h
      rw [dupGo] at h
      split at h
      · split at h
        · rcases List.mem_cons.mp h with rfl | h'
          · exact ⟨rfl, rfl, i, List.mem_cons_self _ _, rfl⟩
          · rcases ih h' with ⟨h1, h2, j, hj, h3⟩
            exact ⟨h1, h2, j, List.mem_cons_of_mem _ hj, h3⟩
        · rcases ih h with ⟨h1, h2, j, hj, h3⟩
          exact ⟨h1, h2, j, List.mem_cons_of_mem _ hj, h3⟩
      · rcases ih h with ⟨h1, h2, j, hj, h3⟩
        exact ⟨h1, h2, j, List.mem_cons_of_mem _ hj, h3⟩

theorem dc_cat {code : List Char} {lines : List (List Char)} {d : Detection}
    (h : d ∈ detect_duplicate_code code lines) :
    d.pattern_type = .DUPLICATE_CODE :=
  (dupGo_mem h).1

theorem pd_cat {code : List Char} {lines : List (List Char)} {d : Detection}
    (h : d ∈ detect_performance_degradation code lines) :
    d.pattern_type = .PERFORMANCE_DEGRADATION := by
  simp only [detect_performance_degradation, ruleFindings, List.mem_append,
    List.mem_map] at h
  rcases h with ⟨m, _, rfl⟩ | ⟨m, _, rfl⟩ <;> rfl

theorem ss_cat {code : List Char} {lines : List (List Char)} {d : Detection}
    (h : d ∈ detect_security_shortcuts code lines) :
    d.pattern_type = .SECURITY_SHORTCUT := by
  simp only [detect_security_shortcuts, ruleFindings, List.mem_flatMap,
    List.mem_map] at h
  rcases h with ⟨r, _, m, _, rfl⟩
  rfl

theorem em_cat {code : List Char} {lines : List (List Char)} {d : Detection}
    (h : d ∈ detect_error_masking code lines) :
    d.pattern_type = .ERROR_MASKING := by
  simp only [detect_error_masking, ruleFindings, List.mem_flatMap,
    List.mem_map] at h
  rcases h with ⟨pat, _, m, _, rfl⟩
  rfl

theorem ta_cat {code : List Char} {lines : List (List Char)} {d : Detection}
    (h : d ∈ detect_test_avoidance code lines) :
    d.pattern_type = .TEST_AVOIDANCE := by
  simp only [detect_test_avoidance, ruleFindings, List.mem_flatMap,
    List.mem_map] at h
  rcases h with ⟨pat, _, m, _, rfl⟩
  rfl

end DetectorLemmas

/-- Claim C1: the engine never fails — the embedded `analyze_code` and
`assess_impact` are total functions — and an input the structural detector
cannot parse (`parsed = none`, the `SyntaxError` case) contributes zero
AssumptionBypass findings while the findings of every other detector are
returned unchanged: the parse-failure output is exactly the output with
any parse outcome minus its AssumptionBypass findings. -/
theorem analyze_code_never_fails_degrades (code : List Char)
    (parsed : Option (List PyNode)) :
    (analyze_code code none).filter
        (fun d => d.pattern_type = PatternType.ASSUMPTION_BYPASS) = [] ∧
      analyze_code code none = (analyze_code code parsed).filter
        (fun d => ¬ d.pattern_type = PatternType.ASSUMPTION_BYPASS) := by
  have hnil : ∀ (l : List Detection), (∀ d ∈ l, d.pattern_type ≠ .ASSUMPTION_BYPASS) →
      l.filter (fun d => d.pattern_type = PatternType.ASSUMPTION_BYPASS) = [] := by
    intro l hl
    rw [List.filter_eq_nil_iff]
    intro d hd
    simp [hl d hd]
  have hself : ∀ (l : List Detection), (∀ d ∈ l, d.pattern_type ≠ .ASSUMPTION_BYPASS) →
      l.filter (fun d => ¬ d.pattern_type = PatternType.ASSUMPTION_BYPASS) = l := by
    intro l hl
    rw [List.filter_eq_self]
    intro d hd
    simp [hl d hd]
  have hb : detect_assumption_bypass none = ([] : List Detection) := rfl
  have hbf : (detect_assumption_bypass parsed).filter
      (fun d => ¬ d.pattern_type = PatternType.ASSUMPTION_BYPASS) = [] := by
    rw [List.filter_eq_nil_iff]
    intro d hd
    simp [ab_cat hd]
  constructor
  · simp only [analyze_code, List.filter_append, hb, List.filter_nil]
    rw [hnil _ (fun d hd => by simp [sf_cat hd]),
      hnil _ (fun d hd => by simp [ws_cat hd]),
      hnil _ (fun d hd => by simp [dc_cat hd]),
      hnil _ (fun d hd => by simp [pd_cat hd]),
      hnil _ (fun d hd => by simp [ss_cat hd]),
      hnil _ (fun d hd => by simp [em_cat hd]),
      hnil _ (fun d hd => by simp [ta_cat hd])]
    simp
  · simp only [analyze_code, List.filter_append, hb, hbf]
    rw [hself _ (fun d hd => by simp [sf_cat hd]),
      hself _ (fun d hd => by simp [ws_cat hd]),
      hself _ (fun d hd => by simp [dc_cat hd]),
      hself _ (fun d hd => by simp [pd_cat hd]),
      hself _ (fun d hd => by simp [ss_cat hd]),
      hself _ (fun d hd => by simp [em_cat hd]),
      hself _ (fun d hd => by simp [ta_cat hd])]

theorem bfsWalk_singleton (n : PyNode) : bfsWalk [n] = n :: bfsWalk n.childNodes := by
  rw [bfsWalk]
  simp

/-- Claim C9: on a successful parse the structural detector emits exactly
the findings described by the spec — one Warning finding of category
AssumptionBypass with confidence 0.7, at the definition line of each
function definition (in `ast.walk` order) that declares at least one
parameter and whose body contains no `if` node anywhere (nested bodies
included), naming the first parameter in the recommendation; functions
with zero parameters never qualify. -/
theorem flatMap_eq_filterMap {α β : Type} (f : α → List β) (g : α → Option β)
    (hfg : ∀ a, f a = (g a).toList) :
    ∀ l : List α, l.flatMap f = l.filterMap g := by
  intro l
  induction l with
  | nil => rfl
  | cons a t ih =>
      rw [List.flatMap_cons, List.filterMap_cons, hfg a]
      cases g a <;> simp [ih]

theorem assumption_bypass_spec (tree : List PyNode) :
    detect_assumption_bypass (some tree) = specBypass tree := by
  rw [detect_assumption_bypass, specBypass]
  apply flatMap_eq_filterMap
  intro n
  cases n with
  | funcDef name lineno args body =>
      have hveq : (bfsWalk [PyNode.funcDef name lineno args body]).any isIfNode
          = (bfsWalk body).any isIfNode := by
        rw [bfsWalk_singleton]
        simp [isIfNode, PyNode.childNodes]
      by_cases hargs : args = []
      · simp [hargs]
      · by_cases hv : (bfsWalk body).any isIfNode = false
        · simp only [hveq, hv]
          simp [hargs, List.length_pos.mpr hargs]
        · simp only [hveq]
          simp [hargs, hv]
  | ifNode l b => rfl
  | other l b => rfl

theorem pairwise_const_cat {l : List Detection} {c : PatternType}
    (h : ∀ d ∈ l, d.pattern_type = c) : l.Pairwise catLE := by
  induction l with
  | nil => exact List.Pairwise.nil
  | cons a t ih =>
      refine List.Pairwise.cons ?_ (ih (fun d hd => h d (List.mem_cons_of_mem _ hd)))
      intro b hb
      unfold catLE
      rw [h a (List.mem_cons_self _ _), h b (List.mem_cons_of_mem _ hb)]

theorem pairwise_cat_append {l₁ l₂ : List Detection} {c : PatternType}
    (h₁ : ∀ d ∈ l₁, d.pattern_type = c)
    (hlb : ∀ d ∈ l₂, catIdx c ≤ catIdx d.pattern_type)
    (h₂ : l₂.Pairwise catLE) : (l₁ ++ l₂).Pairwise catLE := by
  rw [List.pairwise_append]
  refine ⟨pairwise_const_cat h₁, h₂, ?_⟩
  intro a ha b hb
  unfold catLE
  rw [h₁ a ha]
  exact hlb b hb

theorem dupGo_pairwise {lines : List (List Char)} :
    ∀ {idxs : List ℕ} {seen : List (List Char × ℕ)}, idxs.Pairwise (· < ·) →
      (dupGo lines idxs seen).Pairwise (fun a b => a.line_number ≤ b.line_number) := by
  intro idxs
  induction idxs with
  | nil => intro seen _; simp [dupGo]
  | cons i rest ih =>
      intro seen hp
      rw [List.pairwise_cons] at hp
      rw [dupGo]
      split
      · split
        · refine List.Pairwise.cons ?_ (ih hp.2)
          intro d' hd'
          rcases dupGo_mem hd' with ⟨_, _, j, hj, hl⟩
          have hij := hp.1 j hj
          simp only [hl]
          omega
        · exact ih hp.2
      · exact ih hp.2

/-- Claim C7 (amended): the output of `analyze_code` is grouped in the fixed
detector-category order (non-decreasing `catIdx` across the whole list);
within each individual regex rule the matches — and hence the emitted
findings — are in strictly ascending match position and so non-decreasing
line number; and the duplicate-code findings are in ascending window start
line.  (The original claim's "ascending position within each detector"
fails because a detector that runs several rules emits all of one rule's
findings before the next rule's; the structural detector orders its
findings by the breadth-first AST walk, not by line.) -/
theorem analyze_code_order_amended (code : List Char) (parsed : Option (List PyNode)) :
    (analyze_code code parsed).Pairwise catLE ∧
      (∀ pat : Regex,
        ((reFinditer pat code).map (fun m => lineNumberAt code m.1)).Pairwise (· ≤ ·)) ∧
      (detect_duplicate_code code (splitNl code)).Pairwise
        (fun a b => a.line_number ≤ b.line_number) := by
  refine ⟨?_, ?_, ?_⟩
  · simp only [analyze_code, List.append_assoc]
    have m8 : ∀ d ∈ detect_test_avoidance code (splitNl code),
        7 ≤ catIdx d.pattern_type := by
      intro d hd; rw [ta_cat hd]; decide
    have m7 : ∀ d ∈ detect_error_masking code (splitNl code) ++
        detect_test_avoidance code (splitNl code), 6 ≤ catIdx d.pattern_type := by
      intro d hd
      rcases List.mem_append.mp hd with h | h
      · rw [em_cat h]; decide
      · exact le_trans (by decide) (m8 d h)
    have m6 : ∀ d ∈ detect_security_shortcuts code (splitNl code) ++
        (detect_error_masking code (splitNl code) ++
          detect_test_avoidance code (splitNl code)),
        5 ≤ catIdx d.pattern_type := by
      intro d hd
      rcases List.mem_append.mp hd with h | h
      · rw [ss_cat h]; decide
      · exact le_trans (by decide) (m7 d h)
    have m5 : ∀ d ∈ detect_performance_degradation code (splitNl code) ++
        (detect_security_shortcuts code (splitNl code) ++
          (detect_error_masking code (splitNl code) ++
            detect_test_avoidance code (splitNl code))),
        4 ≤ catIdx d.pattern_type := by
      intro d hd
      rcases List.mem_append.mp hd with h | h
      · rw [pd_cat h]; decide
      · exact le_trans (by decide) (m6 d h)
    have m4 : ∀ d ∈ detect_duplicate_code code (splitNl code) ++
        (detect_performance_degradation code (splitNl code) ++
          (detect_security_shortcuts code (splitNl code) ++
            (detect_error_masking code (splitNl code) ++
              detect_test_avoidance code (splitNl code)))),
        3 ≤ catIdx d.pattern_type := by
      intro d hd
      rcases List.mem_append.mp hd with h | h
      · rw [dc_cat h]; decide
      · exact le_trans (by decide) (m5 d h)
    have m3 : ∀ d ∈ detect_assumption_bypass parsed ++
        (detect_duplicate_code code (splitNl code) ++
          (detect_performance_degradation code (splitNl code) ++
            (detect_security_shortcuts code (splitNl code) ++
              (detect_error_masking code (splitNl code) ++
                detect_test_avoidance code (splitNl code))))),
        2 ≤ catIdx d.pattern_type := by
      intro d hd
      rcases List.mem_append.mp hd with h | h
      · rw [ab_cat h]; decide
      · exact le_trans (by decide) (m4 d h)
    have m2 : ∀ d ∈ detect_warning_suppression code (splitNl code) ++
        (detect_assumption_bypass parsed ++
          (detect_duplicate_code code (splitNl code) ++
            (detect_performance_degradation code (splitNl code) ++
              (detect_security_shortcuts code (splitNl code) ++
                (detect_error_masking code (splitNl code) ++
                  detect_test_avoidance code (splitNl code)))))),
        1 ≤ catIdx d.pattern_type := by
      intro d hd
      rcases List.mem_append.mp hd with h | h
      · rw [ws_cat h]; decide
      · exact le_trans (by decide) (m3 d h)
    have p8 : (detect_test_avoidance code (splitNl code)).Pairwise catLE :=
      pairwise_const_cat (fun d hd => ta_cat hd)
    have p7 : (detect_error_masking code (splitNl code) ++ (detect_test_avoidance code (splitNl code))).Pairwise catLE :=
      pairwise_cat_append (fun d hd => em_cat hd)
        (fun d hd => le_trans (by decide) (m8 d hd)) p8
    have p6 : (detect_security_shortcuts code (splitNl code) ++ (detect_error_masking code (splitNl code) ++ (detect_test_avoidance code (splitNl code)))).Pairwise catLE :=
      pairwise_cat_append (fun d hd => ss_cat hd)
        (fun d hd => le_trans (by decide) (m7 d hd)) p7
    have p5 : (detect_performance_degradation code (splitNl code) ++ (detect_security_shortcuts code (splitNl code) ++ (detect_error_masking code (splitNl code) ++ (detect_test_avoidance code (splitNl code))))).Pairwise catLE :=
      pairwise_cat_append (fun d hd => pd_cat hd)
        (fun d hd => le_trans (by decide) (m6 d hd)) p6
    have p4 : (detect_duplicate_code code (splitNl code) ++ (detect_performance_degradation code (splitNl code) ++ (detect_security_shortcuts code (splitNl code) ++ (detect_error_masking code (splitNl code) ++ (detect_test_avoidance code (splitNl code)))))).Pairwise catLE :=
      pairwise_cat_append (fun d hd => dc_cat hd)
        (fun d hd => le_trans (by decide) (m5 d hd)) p5
    have p3 : (detect_assumption_bypass parsed ++ (detect_duplicate_code code (splitNl code) ++ (detect_performance_degradation code (splitNl code) ++ (detect_security_shortcuts code (splitNl code) ++ (detect_error_masking code (splitNl code) ++ (detect_test_avoidance code (splitNl code))))))).Pairwise catLE :=
      pairwise_cat_append (fun d hd => ab_cat hd)
        (fun d hd => le_trans (by decide) (m4 d hd)) p4
    have p2 : (detect_warning_suppression code (splitNl code) ++ (detect_assumption_bypass parsed ++ (detect_duplicate_code code (splitNl code) ++ (detect_performance_degradation code (splitNl code) ++ (detect_security_shortcuts code (splitNl code) ++ (detect_error_masking code (splitNl code) ++ (detect_test_avoidance code (splitNl code)))))))).Pairwise catLE :=
      pairwise_cat_append (fun d hd => ws_cat hd)
        (fun d hd => le_trans (by decide) (m3 d hd)) p3
    exact pairwise_cat_append (fun d hd => sf_cat hd)
      (fun d hd => Nat.zero_le _) p2
  · intro pat
    exact List.Pairwise.map _ (fun a b hab => lineNumberAt_mono (le_of_lt hab))
      (reFinditer_pairwise pat code)
  · unfold detect_duplicate_code
    exact dupGo_pairwise (List.pairwise_lt_range _)

set_option maxRecDepth 8000 in
/-- Claim C7 (counterexample): on
`"except Exception: pass\nexcept: pass"` — a `SyntaxError` for the parser —
the silent-fallback detector emits its pattern-1 finding (line 2) before
its pattern-2 finding (line 1), so the output is not in ascending
first-match position within the SilentFallback detector: the claimed
ordering fails. -/
theorem analyze_code_claimed_order_false :
    ¬ claimedOrdering (analyze_code cexC7 none) := by
  intro h
  unfold claimedOrdering at h
  rw [show (analyze_code cexC7 none).map ordKey = [(0, 2), (0, 1)] from by decide] at h
  have h21 := List.rel_of_pairwise_cons h (List.mem_singleton.mpr rfl)
  exact absurd h21 (by decide)

set_option maxRecDepth 10000 in
/-- Claim C8 (counterexample): on the scenario input `cexC8` — two identical
12-line blocks (each line 12 characters, normalized window length 129 > 50)
separated by three unrelated lines — `analyze_code` yields two
DuplicateCode findings, not exactly one. -/
theorem duplicate_block_single_finding_false :
    ¬ ((analyze_code cexC8 none).filter
        (fun d => d.pattern_type = PatternType.DUPLICATE_CODE)).length = 1 := by
  decide

set_option maxRecDepth 10000 in
/-- Claim C8 (amended): on the two-identical-12-line-block scenario the
engine emits one DuplicateCode finding per repeated 10-line window that the
scan examines — here two, because the scan stops at
`len(lines) - block_size` and so never examines the final window — each a
Warning with confidence 0.9 whose `line_number` is the corresponding window
start inside the second block and whose snippet also names the first
occurrence's line. -/
theorem duplicate_block_two_findings :
    (analyze_code cexC8 none).map
        (fun d => (d.pattern_type, d.severity, d.line_number, d.code_snippet,
          d.confidence)) =
      [(.DUPLICATE_CODE, .WARNING, 16, "Duplicate block at line 16 (also at 1)", 0.9),
       (.DUPLICATE_CODE, .WARNING, 17, "Duplicate block at line 17 (also at 2)", 0.9)] := by
  with_unfolding_all decide

end SilentAlarm
